import Mathlib

/-!
Shallow embedding of the Elide Nomad task-driver core (`src/driver/`):
the task-lifecycle state machine, session bootstrap, completion watcher,
path resolution for task scripts, and the task registry.  Pure Go code is
translated to Lean functions; stateful methods become explicit
state-passing functions; RPC calls and file reads are recorded in an
event trace and their responses are supplied by an environment.
-/

namespace ElideDriver

/-- An exit result as surfaced to the orchestrator
(`drivers.ExitResult`): exit code plus optional error text. -/
structure ExitResult where
  exitCode : Int
  err : Option String
deriving Repr, DecidableEq

/-- The orchestrator-level task configuration fields the driver consumes
(`drivers.TaskConfig`): task id, name, and the task directory. -/
structure NomadTaskConfig where
  id : String
  name : String
  taskDirDir : String
deriving Repr, DecidableEq

/-- Per-task driver configuration (`TaskConfig` in `config.go`). -/
structure TaskConfig where
  script : String
  code : String
  language : String
  args : List String
  env : List (String × String)
deriving Repr, DecidableEq

/-- In-memory task handle (`taskHandle` in `handle.go`).  Time is
modelled as a natural number supplied by the caller. -/
structure TaskHandle where
  executionId : String
  sessionId : String
  taskConfig : NomadTaskConfig
  startedAt : Nat
  completedAt : Option Nat
  exitResult : Option ExitResult
  status : String
deriving Repr, DecidableEq

/-- Execution status reported by the daemon
(`GetExecutionStatus` response). -/
structure ExecutionStatus where
  status : String
  complete : Bool
  exitCode : Int
  error : String
deriving Repr, DecidableEq

/-- `ExecuteSnippet` response: the daemon-assigned execution id and
initial status. -/
structure ExecResp where
  executionId : String
  status : String
deriving Repr, DecidableEq

/-- `taskHandle.IsRunning`: true iff no terminal result yet. -/
def isRunning (h : TaskHandle) : Bool :=
  h.exitResult.isNone

/-- `taskHandle.SetCompleted`: stores the given exit result and stamps
the completion time.  The Go method assigns unconditionally under the
state lock. -/
def setCompleted (h : TaskHandle) (result : ExitResult) (now : Nat) : TaskHandle :=
  { h with exitResult := some result, completedAt := some now }

/-! ### Task registry (`taskStore` in `state.go`) -/

/-- `taskStore.Get`: lookup by task id. -/
def storeGet (ts : List (String × TaskHandle)) (id : String) : Option TaskHandle :=
  (ts.find? (fun p => p.1 = id)).map (·.2)

/-- `taskStore.Set`: insert or overwrite by task id (Go map assignment). -/
def storeSet (ts : List (String × TaskHandle)) (id : String) (h : TaskHandle) :
    List (String × TaskHandle) :=
  (id, h) :: ts.filter (fun p => p.1 ≠ id)

/-- `taskStore.Delete`: remove by task id (Go map delete). -/
def storeDelete (ts : List (String × TaskHandle)) (id : String) :
    List (String × TaskHandle) :=
  ts.filter (fun p => p.1 ≠ id)

/-! ### Go path cleaning (`filepath.Clean` / `filepath.Join`, Unix rules),
used by `StartTask` to resolve a script path inside the task directory. -/

/-- Split a character list on `/` separators. -/
def splitSlash : List Char → List (List Char)
  | [] => [[]]
  | c :: cs =>
    if c = '/' then [] :: splitSlash cs
    else
      match splitSlash cs with
      | [] => [[c]]
      | g :: gs => (c :: g) :: gs

/-- Core of Go `filepath.Clean`: process path elements left to right,
keeping an output stack (head = most recent element).  `..` pops a
normal element, is dropped at the root, and accumulates at the front of
a relative path. -/
def cleanElems (rooted : Bool) : List (List Char) → List (List Char) → List (List Char)
  | [], out => out
  | e :: rest, out =>
    if e = [] ∨ e = ['.'] then cleanElems rooted rest out
    else if e = ['.', '.'] then
      match out with
      | [] => if rooted then cleanElems rooted rest [] else cleanElems rooted rest [['.', '.']]
      | top :: out2 =>
        if top = ['.', '.'] then cleanElems rooted rest (e :: top :: out2)
        else cleanElems rooted rest out2
    else cleanElems rooted rest (e :: out)

/-- Join path elements with `/`. -/
def joinSlash : List (List Char) → List Char
  | [] => []
  | [e] => e
  | e :: rest => e ++ '/' :: joinSlash rest

/-- Go `filepath.Clean` on Unix: lexical shortest equivalent path. -/
def goClean (p : String) : String :=
  if p = "" then "."
  else
    let rooted := p.data.head? = some '/'
    let elems := (cleanElems rooted (splitSlash p.data) []).reverse
    let body := joinSlash elems
    if rooted then ⟨'/' :: body⟩
    else if body = [] then "." else ⟨body⟩

/-- `strings.HasPrefix s pre`. -/
def hasPrefixStr (s pre : String) : Bool :=
  pre.data.isPrefixOf s.data

/-- Go `filepath.Join a b` for a non-empty `a`: join with `/` and
clean. -/
def goJoin (a b : String) : String :=
  goClean (a ++ "/" ++ b)

/-- The traversal check of `StartTask` (`driver.go:280-284`): the
script path, cleaned and joined under the cleaned task directory,
escapes unless it keeps the task directory as a proper prefix or equals
it. -/
def scriptEscapes (taskDirDir script : String) : Bool :=
  let baseDir := goClean taskDirDir
  let scriptPath := goClean (goJoin baseDir script)
  !(hasPrefixStr scriptPath (baseDir ++ "/") || scriptPath == baseDir)

/-! ### Task-config validation (`config.go`) -/

/-- `TaskConfig.Validate` (`config.go:129`): exactly one of script/code,
and a non-empty language. -/
def validate (tc : TaskConfig) : Except String Unit :=
  if tc.script = "" ∧ tc.code = "" then
    .error "either script or code must be specified"
  else if tc.script ≠ "" ∧ tc.code ≠ "" then
    .error "cannot specify both script and code"
  else if tc.language = "" then
    .error "language must be specified"
  else .ok ()

/-- `TaskConfig.ValidateLanguage` (`config.go:144`): membership of the
language of the task in the enabled-language list. -/
def validateLanguage (tc : TaskConfig) (enabledLanguages : List String) : Except String Unit :=
  if enabledLanguages.contains tc.language then .ok ()
  else .error ("language " ++ tc.language ++ " not enabled in session")

/-- The default language set used when the plugin configuration leaves
`enabled_languages` empty. -/
def defaultLanguages : List String := ["python", "javascript", "typescript"]

/-- The enabled-language list `StartTask` validates against
(`driver.go:259-262`): the configured list, or the defaults when it is
empty. -/
def startTaskEnabledLanguages (cfgLangs : List String) : List String :=
  if cfgLangs = [] then defaultLanguages else cfgLangs

/-- The enabled-language list `buildSessionConfig` places in the session
configuration (`driver.go:662-665`). -/
def sessionConfigLanguages (cfgLangs : List String) : List String :=
  if cfgLangs = [] then defaultLanguages else cfgLangs

/-! ### Driver state and event traces -/

/-- The driver-plugin state the modelled operations touch: the task
registry, the cached session id (`""` = unassigned), whether the daemon
client is initialized, and the configured enabled-language list. -/
structure DriverState where
  tasks : List (String × TaskHandle)
  sessionID : String
  hasClient : Bool
  cfgEnabledLanguages : List String
deriving Repr, DecidableEq

/-- Externally visible effects: RPCs issued to the daemon and file
reads. -/
inductive Event where
  | createSession
  | getSession
  | executeSnippet
  | getStatus
  | fileRead (path : String)
deriving Repr, DecidableEq

/-! ### Session bootstrap (`ensureSession`, `driver.go:594-654`) -/

/-- Outcome of one `CreateSession` RPC: success with a session id, a
transport error with a message, or a nil response without an error. -/
inductive CreateResult where
  | ok (sid : String)
  | rpcErr (msg : String)
  | nilResp
deriving Repr, DecidableEq

/-- Outcome of one fallback `GetSession` RPC. -/
inductive GetResult where
  | ok (sid : String)
  | failed
deriving Repr, DecidableEq

/-- Daemon behaviour during session bootstrap, indexed by attempt. -/
structure SessionEnv where
  create : Nat → CreateResult
  get : Nat → GetResult

/-- The attempt budget (`const attempts = 5`). -/
def attemptsBudget : Nat := 5

/-- The base backoff delay in milliseconds (`baseDelay = 200ms`). -/
def baseDelayMs : Nat := 200

/-- The retry loop of `ensureSession`: per attempt, try `CreateSession`,
fall back to `GetSession`, and on failure of both wait
`(i+1) * baseDelay` before the next attempt.  Returns the obtained
session id or the final error, the RPC trace, and the list of waits (in
milliseconds). -/
def sessionLoop (env : SessionEnv) : Nat → Nat → Option String →
    Except String String × List Event × List Nat
  | 0, _, lastErr =>
    (match lastErr with
     | some e => .error ("failed to create session after retries: " ++ e)
     | none => .error "failed to create or reuse session: unknown error",
     [], [])
  | fuel + 1, i, lastErr =>
    match env.create i with
    | .ok sid => (.ok sid, [.createSession], [])
    | bad =>
      let lastErr2 := match bad with
        | .rpcErr m => some m
        | _ => lastErr
      match env.get i with
      | .ok sid => (.ok sid, [.createSession, .getSession], [])
      | .failed =>
        match sessionLoop env fuel (i + 1) lastErr2 with
        | (r, tr, ds) =>
          (r, .createSession :: .getSession :: tr, ((i + 1) * baseDelayMs) :: ds)

/-- `generateSessionID` (`driver.go:686-697`): reuse the cached id when
present, else derive a deterministic id from the hostname (`none` models
an `os.Hostname` error). -/
def generateSessionID (st : DriverState) (hostname : Option String) : String :=
  if st.sessionID ≠ "" then st.sessionID
  else
    let h := match hostname with
      | none => "unknown"
      | some s => if s = "" then "unknown" else s
    "nomad-" ++ h

/-- `ensureSession` (`driver.go:594-654`): idempotent session bootstrap.
Requires an initialized daemon client; returns immediately when a
session id is cached; otherwise runs the bounded retry loop and caches
the obtained id. -/
def ensureSession (st : DriverState) (env : SessionEnv) :
    DriverState × Except String Unit × List Event × List Nat :=
  if ¬ st.hasClient then (st, .error "daemon client not initialized", [], [])
  else if st.sessionID ≠ "" then (st, .ok (), [], [])
  else
    match sessionLoop env attemptsBudget 0 none with
    | (.ok sid, tr, ds) => ({ st with sessionID := sid }, .ok (), tr, ds)
    | (.error e, tr, ds) => (st, .error e, tr, ds)

/-! ### StartTask (`driver.go:244-338`) -/

/-- Environment for one `StartTask` call: daemon behaviour for session
bootstrap, the file system (`os.ReadFile`; `none` = read error), and
the `ExecuteSnippet` outcome. -/
structure StartEnv where
  session : SessionEnv
  readFile : String → Option String
  exec : Except String ExecResp

/-- Script-source resolution inside `StartTask` (`driver.go:274-292`):
inline code wins; otherwise the script path is cleaned and joined under
the task directory and rejected when it escapes it; a file read is only
attempted for a path that passed the check.  Returns the source (or
error) and the file reads attempted. -/
def resolveSource (cfg : NomadTaskConfig) (tc : TaskConfig) (readFile : String → Option String) :
    Except String String × List Event :=
  if tc.code ≠ "" then (.ok tc.code, [])
  else if tc.script ≠ "" then
    let baseDir := goClean cfg.taskDirDir
    let scriptPath := goClean (goJoin baseDir tc.script)
    if scriptEscapes cfg.taskDirDir tc.script then
      (.error ("script path " ++ tc.script ++ " escapes task directory"), [])
    else
      match readFile scriptPath with
      | none => (.error "failed to read script file", [.fileRead scriptPath])
      | some c => (.ok c, [.fileRead scriptPath])
  else (.error "either script or code must be specified", [])

/-- `StartTask` (`driver.go:244-338`): double-start guard, config
validation, language validation against the (defaulted) enabled set,
session bootstrap, script resolution, `ExecuteSnippet`, and handle
registration.  Returns the new state, the result, and the event trace. -/
def startTask (st : DriverState) (cfg : NomadTaskConfig) (tc : TaskConfig)
    (env : StartEnv) (now : Nat) :
    DriverState × Except String Unit × List Event :=
  if (storeGet st.tasks cfg.id).isSome then
    (st, .error ("task with ID " ++ cfg.id ++ " already started"), [])
  else
    match validate tc with
    | .error e => (st, .error ("invalid task config: " ++ e), [])
    | .ok _ =>
      match validateLanguage tc (startTaskEnabledLanguages st.cfgEnabledLanguages) with
      | .error e => (st, .error ("language validation failed: " ++ e), [])
      | .ok _ =>
        match ensureSession st env.session with
        | (st1, .error e, tr, _) => (st1, .error ("failed to ensure session: " ++ e), tr)
        | (st1, .ok _, tr, _) =>
          match resolveSource cfg tc env.readFile with
          | (.error e, srcTr) => (st1, .error e, tr ++ srcTr)
          | (.ok _code, srcTr) =>
            match env.exec with
            | .error e =>
              (st1, .error ("failed to execute snippet: " ++ e),
               tr ++ srcTr ++ [.executeSnippet])
            | .ok resp =>
              let h : TaskHandle :=
                { executionId := resp.executionId
                  sessionId := st1.sessionID
                  taskConfig := cfg
                  startedAt := now
                  completedAt := none
                  exitResult := none
                  status := resp.status }
              ({ st1 with tasks := storeSet st1.tasks cfg.id h }, .ok (),
               tr ++ srcTr ++ [.executeSnippet])

/-! ### Completion watcher (`handleWait`, `driver.go:410-451`) -/

/-- One poll outcome seen by the watcher: a transport error from
`GetExecutionStatus`, or a status report. -/
inductive PollResponse where
  | rpcError (msg : String)
  | status (st : ExecutionStatus)
deriving Repr, DecidableEq

/-- A poll outcome that keeps the watcher polling: a status report
whose completion flag is false. -/
def nonTerminalPoll : PollResponse → Bool
  | .rpcError _ => false
  | .status es => !es.complete

/-- The terminal result built from a completed execution status
(`driver.go:438-444` and `driver.go:384-390`): the exit code as
reported, with the error text attached when non-empty. -/
def mkExitResult (es : ExecutionStatus) : ExitResult :=
  { exitCode := es.exitCode
    err := if es.error = "" then none else some es.error }

/-- The result emitted when a status poll returns a transport error
(`driver.go:426-430`): no exit code mapping, just the wrapped error. -/
def pollErrorResult (msg : String) : ExitResult :=
  { exitCode := 0, err := some ("failed to get execution status: " ++ msg) }

/-- The polling loop of `handleWait` over a sequence of poll outcomes:
on a transport error emit the wrapped error and stop; on a status
report update the status field of the handle, and when the completion flag is set
build the terminal result, `setCompleted`, emit it, and stop.  Returns
the final handle, the emitted results, and the number of polls
issued. -/
def runWait (h : TaskHandle) (now : Nat) :
    List PollResponse → TaskHandle × List ExitResult × Nat
  | [] => (h, [], 0)
  | .rpcError msg :: _ => (h, [pollErrorResult msg], 1)
  | .status es :: rest =>
    let h1 := { h with status := es.status }
    if es.complete then
      (setCompleted h1 (mkExitResult es) now, [mkExitResult es], 1)
    else
      match runWait h1 (now + 1) rest with
      | (h2, out, n) => (h2, out, n + 1)

/-! ### RecoverTask (`driver.go:341-396`) -/

/-- Persisted task snapshot (`TaskState`), as written by `StartTask`
(`driver.go:325-330`): execution id, session id, task config, start
time. -/
structure TaskState where
  executionId : String
  sessionId : String
  taskConfig : NomadTaskConfig
  startedAt : Nat
deriving Repr, DecidableEq

/-- `RecoverTask` (`driver.go:341-396`) on a decoded snapshot: no-op
when the task id is already registered; otherwise reconnect the daemon
client if needed (restoring the session id of the snapshot), fetch the
execution status, rebuild the handle from the snapshot plus the fetched
status, mark it completed when the status reports completion, and
register it.  `reconnect` models whether `NewDaemonClient` succeeds;
`statusResp` models the `GetExecutionStatus` outcome. -/
def recoverTask (st : DriverState) (ts : TaskState) (reconnect : Bool)
    (statusResp : Except String ExecutionStatus) (now : Nat) :
    DriverState × Except String Unit × List Event :=
  if (storeGet st.tasks ts.taskConfig.id).isSome then (st, .ok (), [])
  else
    let (st1, clientOk) :=
      if st.hasClient then (st, true)
      else if reconnect then
        ({ st with hasClient := true, sessionID := ts.sessionId }, true)
      else (st, false)
    if ¬ clientOk then (st1, .error "failed to reconnect to daemon", [])
    else
      match statusResp with
      | .error e => (st1, .error ("failed to get execution status: " ++ e), [.getStatus])
      | .ok resp =>
        let h0 : TaskHandle :=
          { executionId := ts.executionId
            sessionId := ts.sessionId
            taskConfig := ts.taskConfig
            startedAt := ts.startedAt
            completedAt := none
            exitResult := none
            status := resp.status }
        let h := if resp.complete then setCompleted h0 (mkExitResult resp) now else h0
        ({ st1 with tasks := storeSet st1.tasks ts.taskConfig.id h }, .ok (), [.getStatus])

/-! ### DestroyTask (`driver.go:474-491`) -/

/-- `DestroyTask` (`driver.go:474-491`): success on an absent id;
error on a running handle without force; otherwise unconditional
removal from the registry. -/
def destroyTask (st : DriverState) (taskID : String) (force : Bool) :
    DriverState × Except String Unit :=
  match storeGet st.tasks taskID with
  | none => (st, .ok ())
  | some h =>
    if isRunning h ∧ ¬ force then (st, .error "cannot destroy running task")
    else ({ st with tasks := storeDelete st.tasks taskID }, .ok ())


/-! ### Registry and trace lemmas -/

/-- A freshly set registry entry is retrievable. -/
lemma storeGet_storeSet_self (ts : List (String × TaskHandle)) (id : String) (h : TaskHandle) :
    storeGet (storeSet ts id h) id = some h := by
  simp [storeGet, storeSet]

/-- A deleted registry entry is gone. -/
lemma storeGet_storeDelete_self (ts : List (String × TaskHandle)) (id : String) :
    storeGet (storeDelete ts id) id = none := by
  induction ts with
  | nil => rfl
  | cons a ts ih =>
    by_cases ha : a.1 = id
    · simp only [storeGet, storeDelete] at ih ⊢
      simp [ha, ih, List.filter]
    · simp only [storeGet, storeDelete] at ih ⊢
      simp [ha, List.filter, List.find?, ih]

/-- Skipping one non-terminal status poll: the watcher updates the
status and keeps going with one more poll on the clock. -/
lemma runWait_cons_nonterminal (h : TaskHandle) (now : Nat) (es : ExecutionStatus)
    (l : List PollResponse) (hc : es.complete = false) :
    runWait h now (.status es :: l) =
      ((runWait { h with status := es.status } (now + 1) l).1,
       (runWait { h with status := es.status } (now + 1) l).2.1,
       (runWait { h with status := es.status } (now + 1) l).2.2 + 1) := by
  rcases hr : runWait { h with status := es.status } (now + 1) l with ⟨h2, out, n⟩
  simp [runWait, hc, hr]

/-- Session bootstrap never touches the task registry. -/
lemma ensureSession_preserves_tasks (st : DriverState) (env : SessionEnv) :
    (ensureSession st env).1.tasks = st.tasks := by
  unfold ensureSession
  split
  · rfl
  · split
    · rfl
    · rcases hsl : sessionLoop env attemptsBudget 0 none with ⟨r, tr, ds⟩
      cases r <;> simp

/-- The bootstrap loop only ever issues session RPCs. -/
lemma sessionLoop_events (env : SessionEnv) :
    ∀ fuel i le e, e ∈ (sessionLoop env fuel i le).2.1 →
      e = Event.createSession ∨ e = Event.getSession := by
  intro fuel
  induction fuel with
  | zero => intro i le e he; simp [sessionLoop] at he
  | succ n ih =>
    intro i le e he
    unfold sessionLoop at he
    rcases hcr : env.create i with sid | m | _ <;> rw [hcr] at he
    · simp at he; simp [he]
    · rcases hgr : env.get i with sid2 | _ <;> rw [hgr] at he
      · simp at he; rcases he with he | he <;> simp [he]
      · rcases hsl : sessionLoop env n (i + 1) (some m) with ⟨r, tr, ds⟩
        simp [hsl] at he
        rcases he with he | he | he
        · simp [he]
        · simp [he]
        · exact ih (i + 1) (some m) e (by rw [hsl]; exact he)
    · rcases hgr : env.get i with sid2 | _ <;> rw [hgr] at he
      · simp at he; rcases he with he | he <;> simp [he]
      · rcases hsl : sessionLoop env n (i + 1) le with ⟨r, tr, ds⟩
        simp [hsl] at he
        rcases he with he | he | he
        · simp [he]
        · simp [he]
        · exact ih (i + 1) le e (by rw [hsl]; exact he)

/-- `ensureSession` only ever issues session RPCs. -/
lemma ensureSession_events (st : DriverState) (env : SessionEnv) :
    ∀ e ∈ (ensureSession st env).2.2.1, e = Event.createSession ∨ e = Event.getSession := by
  intro e he
  unfold ensureSession at he
  split at he
  · simp at he
  · split at he
    · simp at he
    · rcases hsl : sessionLoop env attemptsBudget 0 none with ⟨r, tr, ds⟩
      rw [hsl] at he
      cases r <;> simp at he <;>
        exact sessionLoop_events env attemptsBudget 0 none e (by rw [hsl]; exact he)

/-- Source resolution never issues the execution RPC. -/
lemma resolveSource_no_exec (cfg : NomadTaskConfig) (tc : TaskConfig)
    (rf : String → Option String) :
    Event.executeSnippet ∉ (resolveSource cfg tc rf).2 := by
  unfold resolveSource
  split
  · simp
  · split
    · split
      · simp
      · rcases hr : rf (goClean (goJoin (goClean cfg.taskDirDir) tc.script)) with _ | c <;>
          simp [hr]
    · simp

/-! ### Shared concrete fixtures -/

/-- A concrete orchestrator task configuration. -/
def sampleCfg : NomadTaskConfig :=
  { id := "task-1", name := "hello", taskDirDir := "/alloc/task-1" }

/-- A concrete running task handle. -/
def sampleHandle : TaskHandle :=
  { executionId := "exec-1", sessionId := "nomad-host", taskConfig := sampleCfg,
    startedAt := 0, completedAt := none, exitResult := none, status := "running" }

/-- A driver state with an empty registry, no session yet, a connected
client, and an empty configured language list. -/
def stStartC2 : DriverState :=
  { tasks := [], sessionID := "", hasClient := true, cfgEnabledLanguages := [] }

/-- A driver state whose registry holds the sample running task. -/
def stWithTask : DriverState :=
  { tasks := [("task-1", sampleHandle)], sessionID := "nomad-host",
    hasClient := true, cfgEnabledLanguages := [] }

/-- A driver state with a cached session id. -/
def stCached : DriverState :=
  { tasks := [], sessionID := "nomad-host", hasClient := true, cfgEnabledLanguages := [] }

/-- A task spec whose script path traverses out of the task directory. -/
def tcTraversal : TaskConfig :=
  { script := "../../etc/passwd", code := "", language := "python", args := [], env := [] }

/-- A task spec that gives both a script and inline code. -/
def tcBothGiven : TaskConfig :=
  { script := "a.py", code := "print(1)", language := "python", args := [], env := [] }

/-- A task spec requesting a language outside the enabled set. -/
def tcRuby : TaskConfig :=
  { script := "", code := "print(1)", language := "ruby", args := [], env := [] }

/-- A start environment whose daemon accepts `CreateSession` on the
first attempt and whose execution RPC is never reached. -/
def envStartC2 : StartEnv :=
  { session := { create := fun _ => .ok "sess-1", get := fun _ => .failed }
    readFile := fun _ => none
    exec := .error "not reached" }

/-- A daemon behaviour where every bootstrap RPC fails. -/
def envAllFail : SessionEnv :=
  { create := fun _ => .rpcErr "dial error", get := fun _ => .failed }

/-- A non-terminal execution status. -/
def esRunning : ExecutionStatus :=
  { status := "running", complete := false, exitCode := 0, error := "" }

/-- A completed execution status with exit code 0. -/
def esCompletedOk : ExecutionStatus :=
  { status := "completed", complete := true, exitCode := 0, error := "" }

/-- A cancelled, complete execution status whose reported exit code is
0. -/
def esCancelledZero : ExecutionStatus :=
  { status := "cancelled", complete := true, exitCode := 0, error := "" }

/-- A persisted snapshot matching the sample task. -/
def tsSnap : TaskState :=
  { executionId := "exec-1", sessionId := "nomad-host", taskConfig := sampleCfg,
    startedAt := 7 }

/-! ### Claims -/

/-- Claim C1 (amended): `SetCompleted` stores the given exit result
unconditionally, stamping the completion time of each call, so after
`SetCompleted r1` then `SetCompleted r2` the stored terminal result is
`r2` and the completion time is that of the second call: the last
terminal write wins, not the first. -/
theorem setCompleted_last_write_wins (h : TaskHandle) (r1 r2 : ExitResult) (t1 t2 : Nat) :
    (setCompleted (setCompleted h r1 t1) r2 t2 = setCompleted h r2 t2) ∧
    ((setCompleted h r1 t1).exitResult = some r1) ∧
    ((setCompleted h r1 t1).completedAt = some t1) := by
  simp [setCompleted]

/-- Claim C1 counterexample: calling `SetCompleted` with exit result
`⟨0, none⟩` and then with `⟨1, none⟩` leaves `⟨1, none⟩` stored, not the
first result, refuting that the first terminal write wins. -/
theorem setCompleted_not_first_write_wins :
    ((setCompleted (setCompleted sampleHandle ⟨0, none⟩ 1) ⟨1, none⟩ 2).exitResult ≠
      some ⟨0, none⟩) ∧
    ((setCompleted (setCompleted sampleHandle ⟨0, none⟩ 1) ⟨1, none⟩ 2).exitResult =
      some ⟨1, none⟩) := by
  constructor <;> decide

/-- Claim C2 (amended): config-validation and language-validation
failures abort `StartTask` with the driver state unchanged and an empty
event trace (no RPC of any kind, no handle registered); a
source-resolution failure aborts `StartTask` with an error, leaves the
registry unchanged and issues no `ExecuteSnippet` RPC — but it occurs
after session bootstrap, which may already have issued session RPCs. -/
theorem startTask_sync_failures :
    (∀ st cfg tc env now e, storeGet st.tasks cfg.id = none →
      validate tc = .error e →
      startTask st cfg tc env now = (st, .error ("invalid task config: " ++ e), [])) ∧
    (∀ st cfg tc env now e, storeGet st.tasks cfg.id = none →
      validate tc = .ok () →
      validateLanguage tc (startTaskEnabledLanguages st.cfgEnabledLanguages) = .error e →
      startTask st cfg tc env now = (st, .error ("language validation failed: " ++ e), [])) ∧
    (∀ st cfg tc env now e srcTr,
      resolveSource cfg tc env.readFile = (.error e, srcTr) →
      (∃ msg, (startTask st cfg tc env now).2.1 = Except.error msg) ∧
      (startTask st cfg tc env now).1.tasks = st.tasks ∧
      Event.executeSnippet ∉ (startTask st cfg tc env now).2.2) := by
  refine ⟨?_, ?_, ?_⟩
  · intro st cfg tc env now e hreg hv
    simp [startTask, hreg, hv]
  · intro st cfg tc env now e hreg hv hvl
    simp [startTask, hreg, hv, hvl]
  · intro st cfg tc env now e srcTr hres
    by_cases hreg : (storeGet st.tasks cfg.id).isSome
    · simp [startTask, hreg]
    · rcases hv : validate tc with e1 | u
      · simp [startTask, hreg, hv]
      · rcases hvl : validateLanguage tc (startTaskEnabledLanguages st.cfgEnabledLanguages)
          with e2 | u2
        · simp [startTask, hreg, hv, hvl]
        · rcases hes : ensureSession st env.session with ⟨st1, r, tr, ds⟩
          have htasks : st1.tasks = st.tasks := by
            have := ensureSession_preserves_tasks st env.session
            rw [hes] at this
            exact this
          have htr : Event.executeSnippet ∉ tr := by
            intro hmem
            have := ensureSession_events st env.session Event.executeSnippet
              (by rw [hes]; exact hmem)
            simp at this
          cases r with
          | error e3 =>
            simp [startTask, hreg, hv, hvl, hes, htasks]
            exact htr
          | ok u3 =>
            have hsrc : Event.executeSnippet ∉ srcTr := by
              have := resolveSource_no_exec cfg tc env.readFile
              rw [hres] at this
              exact this
            simp [startTask, hreg, hv, hvl, hes, hres, htasks]
            exact ⟨htr, hsrc⟩

/-- Claim C2 counterexample: with no session cached, a `StartTask` call
whose script path escapes the task directory still issues the
`CreateSession` RPC before returning the resolution error, refuting
that every validation or resolution error is returned before any RPC
is issued. -/
theorem startTask_rpc_before_resolution_error :
    (startTask stStartC2 sampleCfg tcTraversal envStartC2 0).2.1 =
      .error "script path ../../etc/passwd escapes task directory" ∧
    Event.createSession ∈ (startTask stStartC2 sampleCfg tcTraversal envStartC2 0).2.2 := by
  constructor
  · rfl
  · decide

/-- Claim C2 witness: concrete runs of the three failure modes — both
script and code given, a disabled language, and a traversal script path
with no `ExecuteSnippet` issued. -/
theorem startTask_sync_failures_witness :
    startTask stStartC2 sampleCfg tcBothGiven envStartC2 0 =
      (stStartC2, .error ("invalid task config: " ++ "cannot specify both script and code"),
       []) ∧
    startTask stStartC2 sampleCfg tcRuby envStartC2 0 =
      (stStartC2, .error ("language validation failed: " ++
        ("language " ++ "ruby" ++ " not enabled in session")), []) ∧
    Event.executeSnippet ∉ (startTask stStartC2 sampleCfg tcTraversal envStartC2 0).2.2 := by
  refine ⟨?_, ?_, ?_⟩
  · exact startTask_sync_failures.1 stStartC2 sampleCfg tcBothGiven envStartC2 0
      "cannot specify both script and code" rfl rfl
  · exact startTask_sync_failures.2.1 stStartC2 sampleCfg tcRuby envStartC2 0
      ("language " ++ "ruby" ++ " not enabled in session") rfl rfl rfl
  · exact (startTask_sync_failures.2.2 stStartC2 sampleCfg tcTraversal envStartC2 0
      "script path ../../etc/passwd escapes task directory" [] rfl).2.2

/-- Claim C3: after any number of non-terminal status polls, a poll
returning a transport error makes the watcher emit exactly one failed
result whose error wraps (and so contains) the transport error text,
and stop: the poll count equals the polls up to and including the
failing one, independent of any further responses, and nothing else is
emitted. -/
theorem handleWait_transport_error_fail_fast (h : TaskHandle) (now : Nat)
    (pre rest : List PollResponse) (msg : String)
    (hp : ∀ p ∈ pre, nonTerminalPoll p = true) :
    (runWait h now (pre ++ PollResponse.rpcError msg :: rest)).2 =
      ([pollErrorResult msg], pre.length + 1) ∧
    (pollErrorResult msg).err = some ("failed to get execution status: " ++ msg) := by
  refine ⟨?_, rfl⟩
  induction pre generalizing h now with
  | nil => simp [runWait]
  | cons p ps ih =>
    match p with
    | .rpcError m =>
      exact absurd (hp _ (List.mem_cons_self _ _)) (by simp [nonTerminalPoll])
    | .status es =>
      have hc : es.complete = false := by
        have := hp _ (List.mem_cons_self _ _)
        simpa [nonTerminalPoll] using this
      have hps : ∀ p ∈ ps, nonTerminalPoll p = true := fun p hm =>
        hp p (List.mem_cons_of_mem _ hm)
      rw [List.cons_append, runWait_cons_nonterminal _ _ _ _ hc]
      have := ih { h with status := es.status } (now + 1) hps
      simp [Prod.ext_iff] at this ⊢
      exact this

/-- Claim C3 witness: one running poll followed by a transport error
yields the single wrapped error result after two polls. -/
theorem handleWait_transport_error_fail_fast_witness :
    (runWait sampleHandle 0
      ([PollResponse.status esRunning] ++ PollResponse.rpcError "connection refused" :: [])).2 =
      ([pollErrorResult "connection refused"], 1 + 1) ∧
    (pollErrorResult "connection refused").err =
      some ("failed to get execution status: " ++ "connection refused") :=
  handleWait_transport_error_fail_fast sampleHandle 0 [PollResponse.status esRunning] []
    "connection refused" (by decide)

/-- The RPC trace of `n` failed bootstrap attempts: one `CreateSession`
and one fallback `GetSession` per attempt. -/
def sessionFailTrace : Nat → List Event
  | 0 => []
  | n + 1 => .createSession :: .getSession :: sessionFailTrace n

/-- The waits of failed bootstrap attempts starting at attempt `i`:
`(i + 1) * baseDelay` after attempt `i`. -/
def sessionFailDelays (i : Nat) : Nat → List Nat
  | 0 => []
  | n + 1 => (i + 1) * baseDelayMs :: sessionFailDelays (i + 1) n

/-- When every create attempt returns a transport error and every get
fails, the bootstrap loop consumes its whole budget, wraps the last
error, and produces the per-attempt waits. -/
lemma sessionLoop_all_fail (env : SessionEnv) (msgs : Nat → String)
    (hc : ∀ i, env.create i = .rpcErr (msgs i)) (hg : ∀ i, env.get i = .failed) :
    ∀ n i le, sessionLoop env (n + 1) i le =
      (.error ("failed to create session after retries: " ++ msgs (i + n)),
       sessionFailTrace (n + 1), sessionFailDelays i (n + 1)) := by
  intro n
  induction n with
  | zero =>
    intro i le
    simp [sessionLoop, hc, hg, sessionFailTrace, sessionFailDelays]
  | succ m ih =>
    intro i le
    have step : sessionLoop env (m + 1 + 1) i le =
        (match sessionLoop env (m + 1) (i + 1) (some (msgs i)) with
         | (r, tr, ds) =>
           (r, .createSession :: .getSession :: tr, ((i + 1) * baseDelayMs) :: ds)) := by
      simp [sessionLoop, hc, hg]
    rw [step, ih (i + 1)]
    have harith : i + 1 + m = i + (m + 1) := by omega
    simp [sessionFailTrace, sessionFailDelays, harith]

/-- Claim C4: when every `CreateSession` attempt returns a transport
error and every fallback `GetSession` fails, `ensureSession` waits
`(i+1) * baseDelay` after attempt `i` — increasing multiples of the
200ms base delay — retries up to the 5-attempt budget, returns the
wrapped last error, and leaves the driver state (in particular the
empty session id) unchanged, so a later call can retry. -/
theorem ensureSession_bounded_retry (st : DriverState) (env : SessionEnv)
    (msgs : Nat → String)
    (hclient : st.hasClient = true) (hsid : st.sessionID = "")
    (hc : ∀ i, env.create i = .rpcErr (msgs i)) (hg : ∀ i, env.get i = .failed) :
    ensureSession st env =
      (st, .error ("failed to create session after retries: " ++ msgs 4),
       sessionFailTrace attemptsBudget, sessionFailDelays 0 attemptsBudget) ∧
    sessionFailDelays 0 attemptsBudget =
      (List.range attemptsBudget).map (fun i => (i + 1) * baseDelayMs) ∧
    sessionFailDelays 0 attemptsBudget = [200, 400, 600, 800, 1000] ∧
    (sessionFailTrace attemptsBudget).count Event.createSession = attemptsBudget ∧
    st.sessionID = "" := by
  refine ⟨?_, by decide, by decide, by decide, hsid⟩
  have hl := sessionLoop_all_fail env msgs hc hg 4 0 none
  simp [ensureSession, hclient, hsid, show attemptsBudget = 4 + 1 from rfl, hl]

/-- Claim C4 witness: a daemon refusing every bootstrap RPC exhausts
the budget with the linear multiples of the base delay and the wrapped
dial error. -/
theorem ensureSession_bounded_retry_witness :
    ensureSession stStartC2 envAllFail =
      (stStartC2, .error ("failed to create session after retries: " ++ "dial error"),
       sessionFailTrace attemptsBudget, sessionFailDelays 0 attemptsBudget) ∧
    sessionFailDelays 0 attemptsBudget =
      (List.range attemptsBudget).map (fun i => (i + 1) * baseDelayMs) ∧
    sessionFailDelays 0 attemptsBudget = [200, 400, 600, 800, 1000] ∧
    (sessionFailTrace attemptsBudget).count Event.createSession = attemptsBudget ∧
    stStartC2.sessionID = "" :=
  ensureSession_bounded_retry stStartC2 envAllFail (fun _ => "dial error") rfl rfl
    (fun _ => rfl) (fun _ => rfl)

/-- Claim C5 (amended): on the first status poll whose completion flag
is true, the watcher copies the exit code exactly as the daemon
reported it and attaches the error text when non-empty — the same
uniform rule for completed, failed and cancelled statuses, so a
cancelled status maps to a negative code only when the daemon reports
one — then calls `setCompleted` with that result, emits it exactly
once, and stops polling. -/
theorem handleWait_terminal_status_passthrough (h : TaskHandle) (now : Nat)
    (pre rest : List PollResponse) (es : ExecutionStatus)
    (hp : ∀ p ∈ pre, nonTerminalPoll p = true) (hc : es.complete = true) :
    (runWait h now (pre ++ PollResponse.status es :: rest)).2 =
      ([mkExitResult es], pre.length + 1) ∧
    (runWait h now (pre ++ PollResponse.status es :: rest)).1.exitResult =
      some (mkExitResult es) ∧
    (runWait h now (pre ++ PollResponse.status es :: rest)).1.status = es.status ∧
    mkExitResult es =
      { exitCode := es.exitCode, err := if es.error = "" then none else some es.error } := by
  refine ⟨?_, ?_, ?_, rfl⟩ <;>
  · induction pre generalizing h now with
    | nil => simp [runWait, hc, setCompleted]
    | cons p ps ih =>
      match p with
      | .rpcError m =>
        exact absurd (hp _ (List.mem_cons_self _ _)) (by simp [nonTerminalPoll])
      | .status es2 =>
        have hc2 : es2.complete = false := by
          have := hp _ (List.mem_cons_self _ _)
          simpa [nonTerminalPoll] using this
        have hps : ∀ p ∈ ps, nonTerminalPoll p = true := fun p hm =>
          hp p (List.mem_cons_of_mem _ hm)
        rw [List.cons_append, runWait_cons_nonterminal _ _ _ _ hc2]
        have := ih { h with status := es2.status } (now + 1) hps
        simp [Prod.ext_iff] at this ⊢
        exact this

/-- Claim C5 counterexample: a cancelled, complete status whose
reported exit code is 0 is emitted with exit code 0, which is not
negative, refuting that the watcher itself maps cancellation to a
negative or sentinel exit code. -/
theorem handleWait_cancelled_not_negative :
    (runWait sampleHandle 3 [PollResponse.status esCancelledZero]).2.1 =
      [{ exitCode := 0, err := none }] ∧
    ¬ ((0 : Int) < 0) := by
  constructor
  · rfl
  · decide

/-- Claim C5 witness: a running poll followed by a completed status
emits exactly the pass-through result after two polls and completes
the handle. -/
theorem handleWait_terminal_status_passthrough_witness :
    (runWait sampleHandle 0
      ([PollResponse.status esRunning] ++ PollResponse.status esCompletedOk :: [])).2 =
      ([mkExitResult esCompletedOk], 1 + 1) ∧
    (runWait sampleHandle 0
      ([PollResponse.status esRunning] ++ PollResponse.status esCompletedOk :: [])).1.exitResult =
      some (mkExitResult esCompletedOk) ∧
    (runWait sampleHandle 0
      ([PollResponse.status esRunning] ++ PollResponse.status esCompletedOk :: [])).1.status =
      esCompletedOk.status ∧
    mkExitResult esCompletedOk =
      { exitCode := esCompletedOk.exitCode,
        err := if esCompletedOk.error = "" then none else some esCompletedOk.error } :=
  handleWait_terminal_status_passthrough sampleHandle 0 [PollResponse.status esRunning] []
    esCompletedOk (by decide) rfl

/-- Claim C6: a script path that, joined under the cleaned task
directory and cleaned, falls outside that directory (for example via
`..` traversal) makes source resolution fail with the escape error
without attempting any file read, and no `StartTask` run with that spec
ever records a file-read event. -/
theorem startTask_rejects_path_escape (cfg : NomadTaskConfig) (tc : TaskConfig)
    (hcode : tc.code = "") (hscript : tc.script ≠ "")
    (hesc : scriptEscapes cfg.taskDirDir tc.script = true) :
    (∀ rf, resolveSource cfg tc rf =
      (.error ("script path " ++ tc.script ++ " escapes task directory"), [])) ∧
    (∀ st env now p, Event.fileRead p ∉ (startTask st cfg tc env now).2.2) := by
  have hres : ∀ rf : String → Option String, resolveSource cfg tc rf =
      (.error ("script path " ++ tc.script ++ " escapes task directory"), []) := by
    intro rf
    unfold resolveSource
    simp [hcode, hscript, hesc]
  refine ⟨hres, ?_⟩
  intro st env now p
  by_cases hreg : (storeGet st.tasks cfg.id).isSome
  · simp [startTask, hreg]
  · rcases hv : validate tc with e1 | u
    · simp [startTask, hreg, hv]
    · rcases hvl : validateLanguage tc (startTaskEnabledLanguages st.cfgEnabledLanguages)
        with e2 | u2
      · simp [startTask, hreg, hv, hvl]
      · rcases hes : ensureSession st env.session with ⟨st1, r, tr, ds⟩
        have htr : Event.fileRead p ∉ tr := by
          intro hmem
          have := ensureSession_events st env.session (Event.fileRead p)
            (by rw [hes]; exact hmem)
          simp at this
        cases r with
        | error e3 =>
          simp [startTask, hreg, hv, hvl, hes]
          exact htr
        | ok u3 =>
          simp [startTask, hreg, hv, hvl, hes, hres env.readFile]
          exact htr

/-- Claim C6 witness: the traversal path `../../etc/passwd` under the
task directory `/alloc/task-1` is rejected with the escape error and no
file read is attempted in a concrete `StartTask` run. -/
theorem startTask_rejects_path_escape_witness :
    (∀ rf, resolveSource sampleCfg tcTraversal rf =
      (.error ("script path " ++ tcTraversal.script ++ " escapes task directory"), [])) ∧
    (∀ st env now p,
      Event.fileRead p ∉ (startTask st sampleCfg tcTraversal env now).2.2) :=
  startTask_rejects_path_escape sampleCfg tcTraversal rfl (by decide) (by decide)

/-- Claim C7: `RecoverTask` on an already-registered task id is a
no-op returning success; on an unregistered id with a connected client
and successful status fetch it registers a handle carrying exactly the
execution id, session id, config and start time of the snapshot, and
that handle is terminal — completed with the fetched exit code and
error — if and only if the fetched status reports completion. -/
theorem recoverTask_spec :
    (∀ st ts rc sr now h0, storeGet st.tasks ts.taskConfig.id = some h0 →
      recoverTask st ts rc sr now = (st, .ok (), [])) ∧
    (∀ st ts rc resp now, st.hasClient = true →
      storeGet st.tasks ts.taskConfig.id = none →
      ∃ h, storeGet (recoverTask st ts rc (.ok resp) now).1.tasks ts.taskConfig.id = some h ∧
        (recoverTask st ts rc (.ok resp) now).2.1 = .ok () ∧
        h.executionId = ts.executionId ∧ h.sessionId = ts.sessionId ∧
        h.taskConfig = ts.taskConfig ∧ h.startedAt = ts.startedAt ∧
        (h.exitResult.isSome ↔ resp.complete = true) ∧
        (resp.complete = true → h.exitResult = some (mkExitResult resp))) := by
  constructor
  · intro st ts rc sr now h0 hreg
    simp [recoverTask, hreg]
  · intro st ts rc resp now hclient hreg
    by_cases hc : resp.complete = true
    · refine ⟨setCompleted
        { executionId := ts.executionId, sessionId := ts.sessionId,
          taskConfig := ts.taskConfig, startedAt := ts.startedAt,
          completedAt := none, exitResult := none, status := resp.status }
        (mkExitResult resp) now, ?_⟩
      simp [recoverTask, hreg, hclient, hc, storeGet_storeSet_self, setCompleted]
    · refine ⟨(
        { executionId := ts.executionId
          sessionId := ts.sessionId
          taskConfig := ts.taskConfig
          startedAt := ts.startedAt
          completedAt := none
          exitResult := none
          status := resp.status } : TaskHandle), ?_⟩
      simp [recoverTask, hreg, hclient, hc, storeGet_storeSet_self]

/-- Claim C7 witness: recovery of an already-registered task is a
no-op, and recovery of an unregistered snapshot against a completed
status registers a terminal handle with the snapshot identity. -/
theorem recoverTask_spec_witness :
    recoverTask stWithTask tsSnap true (.ok esCompletedOk) 0 = (stWithTask, .ok (), []) ∧
    (∃ h, storeGet (recoverTask stStartC2 tsSnap true (.ok esCompletedOk) 0).1.tasks
        tsSnap.taskConfig.id = some h ∧
      (recoverTask stStartC2 tsSnap true (.ok esCompletedOk) 0).2.1 = .ok () ∧
      h.executionId = tsSnap.executionId ∧ h.sessionId = tsSnap.sessionId ∧
      h.taskConfig = tsSnap.taskConfig ∧ h.startedAt = tsSnap.startedAt ∧
      (h.exitResult.isSome ↔ esCompletedOk.complete = true) ∧
      (esCompletedOk.complete = true → h.exitResult = some (mkExitResult esCompletedOk))) :=
  ⟨recoverTask_spec.1 stWithTask tsSnap true (.ok esCompletedOk) 0 sampleHandle rfl,
   recoverTask_spec.2 stStartC2 tsSnap true esCompletedOk 0 rfl rfl⟩

/-- Claim C8: `DestroyTask` on an absent task id succeeds and leaves
the state untouched; on a registered, still-running handle without
force it errors and the entry stays retrievable unchanged; with force
it removes the entry unconditionally, running or not. -/
theorem destroyTask_spec :
    (∀ st id force, storeGet st.tasks id = none → destroyTask st id force = (st, .ok ())) ∧
    (∀ st id h, storeGet st.tasks id = some h → isRunning h = true →
      destroyTask st id false = (st, .error "cannot destroy running task") ∧
      storeGet (destroyTask st id false).1.tasks id = some h) ∧
    (∀ st id, storeGet (destroyTask st id true).1.tasks id = none ∧
      (destroyTask st id true).2 = .ok ()) := by
  refine ⟨?_, ?_, ?_⟩
  · intro st id force hnone
    simp [destroyTask, hnone]
  · intro st id h hsome hrun
    simp [destroyTask, hsome, hrun]
  · intro st id
    rcases hg : storeGet st.tasks id with _ | h
    · simp [destroyTask, hg]
    · simp [destroyTask, hg, storeGet_storeDelete_self]

/-- Claim C8 witness: destroying an absent id succeeds; destroying the
sample running task without force errors and keeps it; with force the
entry is gone. -/
theorem destroyTask_spec_witness :
    destroyTask stStartC2 "task-1" false = (stStartC2, .ok ()) ∧
    destroyTask stWithTask "task-1" false = (stWithTask, .error "cannot destroy running task") ∧
    storeGet (destroyTask stWithTask "task-1" true).1.tasks "task-1" = none :=
  ⟨destroyTask_spec.1 stStartC2 "task-1" false rfl,
   (destroyTask_spec.2.1 stWithTask "task-1" sampleHandle rfl rfl).1,
   (destroyTask_spec.2.2 stWithTask "task-1").1⟩

/-- Claim C9: with a session id cached, `ensureSession` returns
success immediately with no RPC, no wait and no state change; and on
every path — any client state, any daemon behaviour — a non-empty
cached session id is never overwritten. -/
theorem ensureSession_idempotent :
    (∀ st env, st.hasClient = true → st.sessionID ≠ "" →
      ensureSession st env = (st, .ok (), [], [])) ∧
    (∀ st env, st.sessionID ≠ "" → (ensureSession st env).1 = st) := by
  constructor
  · intro st env hc hs
    simp [ensureSession, hc, hs]
  · intro st env hs
    by_cases hcl : st.hasClient <;> simp [ensureSession, hcl, hs]

/-- Claim C9 witness: with the cached id `nomad-host`, even an
all-failing daemon environment is never contacted and the state is
unchanged. -/
theorem ensureSession_idempotent_witness :
    ensureSession stCached envAllFail = (stCached, .ok (), [], []) ∧
    (ensureSession stCached envAllFail).1 = stCached :=
  ⟨ensureSession_idempotent.1 stCached envAllFail rfl (by decide),
   ensureSession_idempotent.2 stCached envAllFail (by decide)⟩

/-- Claim C10: an empty configured enabled-language list makes
`StartTask` validate against the default set {python, javascript,
typescript} — the same defaults `buildSessionConfig` uses — so exactly
the default languages are accepted, whereas the raw membership check
against an empty list rejects every language. -/
theorem empty_language_config_uses_defaults :
    startTaskEnabledLanguages [] = defaultLanguages ∧
    sessionConfigLanguages [] = defaultLanguages ∧
    (∀ tc : TaskConfig, validateLanguage tc [] =
      .error ("language " ++ tc.language ++ " not enabled in session")) ∧
    (∀ tc : TaskConfig,
      validateLanguage tc (startTaskEnabledLanguages []) = .ok () ↔
        tc.language ∈ defaultLanguages) := by
  refine ⟨rfl, rfl, ?_, ?_⟩
  · intro tc; simp [validateLanguage]
  · intro tc
    rw [show validateLanguage tc (startTaskEnabledLanguages []) =
      (if defaultLanguages.contains tc.language then .ok () else
        .error ("language " ++ tc.language ++ " not enabled in session")) from rfl]
    by_cases hm : tc.language ∈ defaultLanguages
    · simp [List.elem_iff.mpr hm, hm, List.contains]
    · have hcontains : defaultLanguages.contains tc.language = false := by
        rw [← Bool.not_eq_true, List.elem_iff]; exact hm
      simp [hcontains, hm]

end ElideDriver
